import Mathlib

/-!
Verification of the Arandu diagram scripts
(src/docs/create-diagram.py, src/docs/create-diagram-detailed.py).

The scripts build a fixed scene of drawing calls (rounded rectangles,
circles, polygons, arrows, text) against hand-chosen coordinates and
rasterize it once to a PNG file.  This development embeds the geometry
computed by the scripts (hexagon vertices, connector-label interpolation,
arrow presets, opacity values) and, where the painting/export semantics
live outside the repository sources (the plotting library), models the
renderer from the specification, marked as such in the doc comments.
-/

namespace Arandu

/-! ## Connector label interpolation (C3)

From src/docs/create-diagram-detailed.py, draw_arrow, lines 336-337:
  mid_x = start[0] + (end[0] - start[0]) * label_pos
  mid_y = start[1] + (end[1] - start[1]) * label_pos
The spec calls this helper connector_midpoint. -/

def connectorMidpoint (s e : ℚ × ℚ) (frac : ℚ) : ℚ × ℚ :=
  (s.1 + (e.1 - s.1) * frac, s.2 + (e.2 - s.2) * frac)

/-! ## Arrow presets (C7)

From src/docs/create-diagram-detailed.py, draw_arrow, lines 320-333:
  style 'simple': lw=1.5, connectionstyle arc3 rad=0.1, solid
  style 'thick' : lw=2.5, connectionstyle arc3 rad=0,   solid
  style 'dashed': lw=1,   connectionstyle arc3 rad=0.1, linestyle dashed, alpha=0.6
Any other style string draws no arrow (no else branch). -/

structure ArrowPreset where
  lw : ℚ
  rad : ℚ
  isDashed : Bool
  alpha : ℚ
  deriving DecidableEq

def drawArrowPreset (style : String) : Option ArrowPreset :=
  if style = "simple" then some ⟨1.5, 0.1, false, 1⟩
  else if style = "thick" then some ⟨2.5, 0, false, 1⟩
  else if style = "dashed" then some ⟨1, 0.1, true, 0.6⟩
  else none

/-! ## Opacity values (C10)

Every alpha literal passed to a drawing call, per call site, in source
order.  The loop at src/docs/create-diagram.py line 192 passes the
computed values 0.4 + i*0.1 for i = 0..4 (the five decorative data-flow
dots); those are kept as a computed list, mirroring the source. -/

def dotAlphas : List ℚ :=
  (List.range 5).map (fun i => 0.4 + i * 0.1)

/-- Alpha values passed in src/docs/create-diagram.py, in source order
(lines 31-186 before the dot loop, the computed dot alphas of line 192,
then lines 196-217). -/
def script1Alphas : List ℚ :=
  [0.15, 0.15,                                    -- grid lines 31-32
   0.9,                                           -- base_rect 37
   0.85, 0.9, 0.8,                                -- file loop 46, 51, 56
   0.9,                                           -- foundation label 60
   0.95, 0.4, 1.0,                                -- arandu box 65, glow 70, title 75
   0.7,                                           -- desktop icons 81
   0.9, 0.9, 0.7, 0.9,                            -- server box 87, circle 91, ring 94, center 97
   0.9, 0.8,                                      -- server labels 101, 103
   0.9, 0.9, 0.6,                                 -- proxy box 108, hexagon 117, inner hexagon 125
   0.9, 0.8,                                      -- proxy labels 129, 131
   0.7,                                           -- clients box 136
   0.85, 0.9, 0.8,                                -- witsy 140, 143, 145
   0.85, 0.9, 0.8,                                -- cherry 148, 151, 153
   0.85, 0.9, 0.8,                                -- generic 156, 159, 161
   0.7,                                           -- arrow_style dict 166
   0.8, 0.8,                                      -- arrows 170, 174
   0.6, 0.6, 0.6,                                 -- arrows 178, 180, 182
   0.7]                                           -- arrow 186
  ++ dotAlphas                                    -- dot loop 192
  ++ [0.5, 0.5,                                   -- network lines 196, 197
      0.6, 0.6, 0.6, 0.6,                         -- corner accents 202-206
      1.0, 0.8,                                   -- title 210, 212
      0.6]                                        -- legend 217

/-- Alpha values passed in src/docs/create-diagram-detailed.py, in source
order (lines 35-460; the packet loop at line 374 passes 0.6 for each of
the five packets, the legend loop at line 403 passes 0.9 four times). -/
def script2Alphas : List ℚ :=
  [0.1, 0.1,                                      -- grid 35, 37
   0.95, 0.9,                                     -- storage box 49, label 54
   0.9, 0.9, 0.85, 0.7,                           -- model file loop 68, 73, 77, 80
   0.8,                                           -- storage metrics 84
   0.98, 0.3, 1.0,                                -- arandu box 98, inner 105, title 110
   0.7,                                           -- icon grid 119
   0.95,                                          -- widget box 126
   0.9, 0.8,                                      -- status loop 140, 143
   0.95, 0.9,                                     -- llama box 157, label 162
   0.6, 0.8, 0.95,                                -- rings 169, 173, core 176
   0.9, 0.9,                                      -- model indicator 190, 193
   0.95, 0.9,                                     -- proxy box 207, label 212
   0.95, 0.6,                                     -- hexagon 222, inner hexagon 229
   0.7,                                           -- endpoints 244
   0.8, 0.9,                                      -- clients box 258, label 263
   0.9, 0.9, 0.7,                                 -- witsy 269, cherry 288, generic 306
   0.8, 0.7,                                      -- generic labels 311, 313
   0.6, 0.8,                                      -- draw_arrow dashed 333, label 339
   0.6,                                           -- packet loop 374
   0.9, 0.9,                                      -- legend box 387, indicator loop 403
   0.9, 0.85,                                     -- tech box 416, details 434
   0.9, 0.7,                                      -- subtitle 445, footer 451
   0.6, 0.6, 0.6, 0.6]                            -- corners 456-460

/-! ## Theorems: C3, C7, C10 -/

/-- C3: the connector label-point interpolation is exact linear
interpolation: at fraction 0 it returns the start point, at fraction 1
the end point, at fraction 1/2 the exact arithmetic mean; in particular
between (0,0) and (10,10) it gives (0,0), (10,10) and (5,5). -/
theorem connectorMidpoint_spec (s e : ℚ × ℚ) :
    connectorMidpoint s e 0 = s ∧
    connectorMidpoint s e 1 = e ∧
    connectorMidpoint s e (1/2) = ((s.1 + e.1) / 2, (s.2 + e.2) / 2) ∧
    connectorMidpoint (0, 0) (10, 10) 0 = (0, 0) ∧
    connectorMidpoint (0, 0) (10, 10) 1 = (10, 10) ∧
    connectorMidpoint (0, 0) (10, 10) (1/2) = (5, 5) := by
  refine ⟨?_, ?_, ?_, ?_, ?_, ?_⟩ <;>
    simp only [connectorMidpoint, Prod.ext_iff, Prod.mk.injEq] <;>
    constructor <;> ring

/-- C7: the three named connector presets fully determine line width,
curvature, dash style and opacity: simple is slightly curved and solid,
thick has zero curvature, a heavier line width than simple, and is
solid, dashed is slightly curved, dashed and has reduced opacity; no
other style name selects a preset. -/
theorem drawArrowPreset_spec :
    drawArrowPreset ("simple") = some ⟨1.5, 0.1, false, 1⟩ ∧
    drawArrowPreset ("thick") = some ⟨2.5, 0, false, 1⟩ ∧
    drawArrowPreset ("dashed") = some ⟨1, 0.1, true, 0.6⟩ ∧
    (1.5 : ℚ) < 2.5 ∧ (0 : ℚ) < 0.1 ∧ (0.6 : ℚ) < 1 ∧
    (∀ style : String,
      (drawArrowPreset style).isSome =
        (style == "simple" || style == "thick" || style == "dashed")) := by
  refine ⟨by simp [drawArrowPreset], by simp [drawArrowPreset], by simp [drawArrowPreset],
    by norm_num, by norm_num, by norm_num, ?_⟩
  intro style
  simp only [drawArrowPreset]
  split_ifs <;> simp_all

/-- C10: every opacity value passed to any drawing call in either script
lies in [0,1]; the computed data-flow dot alphas 0.4 + i*0.1 never
exceed 0.8. -/
theorem alphas_in_unit_interval :
    (script1Alphas ++ script2Alphas).all
      (fun a => decide (0 ≤ a) && decide (a ≤ 1)) = true ∧
    dotAlphas.all (fun a => decide (a ≤ 0.8)) = true := by
  constructor <;>
    norm_num [script1Alphas, script2Alphas, dotAlphas, List.range_succ, List.all]

/-! ## Regular polygon vertices (C2, C9)

From src/docs/create-diagram.py lines 112-115 (and the same pattern at
src/docs/create-diagram-detailed.py lines 218-220):
  hex_angles = np.linspace(0, 2*np.pi, 7)[:-1] + np.pi/6
  hex_x = 69 + hex_r * np.cos(hex_angles)
  hex_y = 90 + hex_r * np.sin(hex_angles)
so vertex k (k = 0..5) sits at angle 2*pi*k/6 + pi/6 and at distance
hex_r from the center.  The general helper below is the spec's
regular_polygon_vertices; it generalizes the source formula by replacing
the hardcoded 6 with a sides parameter and the hardcoded pi/6 with a
rotation parameter, with angle step 2*pi/sides exactly as in the source. -/

noncomputable section

def polyAngle (sides : ℕ) (rot : ℝ) (k : ℕ) : ℝ :=
  2 * Real.pi * k / sides + rot

def vertexAt (c : ℝ × ℝ) (r : ℝ) (sides : ℕ) (rot : ℝ) (k : ℕ) : ℝ × ℝ :=
  (c.1 + r * Real.cos (polyAngle sides rot k),
   c.2 + r * Real.sin (polyAngle sides rot k))

def regularPolygonVertices (c : ℝ × ℝ) (r : ℝ) (sides : ℕ) (rot : ℝ) :
    List (ℝ × ℝ) :=
  (List.range sides).map (vertexAt c r sides rot)

def euclidDist (a b : ℝ × ℝ) : ℝ :=
  Real.sqrt ((b.1 - a.1) ^ 2 + (b.2 - a.2) ^ 2)

/-- Scaling about a center point with ratio t. -/
def scaleAbout (c : ℝ × ℝ) (t : ℝ) (p : ℝ × ℝ) : ℝ × ℝ :=
  (c.1 + t * (p.1 - c.1), c.2 + t * (p.2 - c.2))

/-- Hexagon center of src/docs/create-diagram.py lines 114-115, 122-123:
the proxy icon at (69, 90). -/
def script1HexCenter : ℝ × ℝ := (69, 90)

/-- Outer hexagon of src/docs/create-diagram.py lines 112-116: radius 5. -/
def script1Hexagon : List (ℝ × ℝ) :=
  regularPolygonVertices script1HexCenter 5 6 (Real.pi / 6)

/-- Inner hexagon of src/docs/create-diagram.py lines 121-124: radius 2.5,
same center and same angle sequence. -/
def script1InnerHexagon : List (ℝ × ℝ) :=
  regularPolygonVertices script1HexCenter (5 / 2) 6 (Real.pi / 6)

/-- Hexagon center of src/docs/create-diagram-detailed.py lines 215-216:
(proxy_x + proxy_w/2, proxy_y + 25) = (170 + 28/2, 25 + 25). -/
def script2HexCenter : ℝ × ℝ := (170 + 28 / 2, 25 + 25)

/-- Outer hexagon of src/docs/create-diagram-detailed.py lines 217-221:
radius 8. -/
def script2Hexagon : List (ℝ × ℝ) :=
  regularPolygonVertices script2HexCenter 8 6 (Real.pi / 6)

/-- Inner hexagon of src/docs/create-diagram-detailed.py lines 225-228:
radius 4, same center and same angle sequence. -/
def script2InnerHexagon : List (ℝ × ℝ) :=
  regularPolygonVertices script2HexCenter 4 6 (Real.pi / 6)

end

/-- C2: for every center, radius > 0, sides >= 3 and rotation, the
regular-polygon helper produces exactly sides points, each at Euclidean
distance exactly radius from the center, and consecutive angles differ by
exactly 2*pi/sides (i.e. 360/sides degrees) starting at the rotation. -/
theorem regularPolygonVertices_spec (c : ℝ × ℝ) (r : ℝ) (sides : ℕ)
    (rot : ℝ) (hr : 0 < r) (hs : 3 ≤ sides) :
    (regularPolygonVertices c r sides rot).length = sides ∧
    (∀ p ∈ regularPolygonVertices c r sides rot, euclidDist c p = r) ∧
    (∀ k : ℕ, polyAngle sides rot (k + 1) - polyAngle sides rot k =
      2 * Real.pi / sides) := by
  have hs0 : (sides : ℝ) ≠ 0 := Nat.cast_ne_zero.mpr (by omega)
  refine ⟨by simp [regularPolygonVertices], ?_, ?_⟩
  · intro p hp
    simp only [regularPolygonVertices, List.mem_map, List.mem_range] at hp
    obtain ⟨k, -, rfl⟩ := hp
    simp only [vertexAt, euclidDist]
    have h1 : (c.1 + r * Real.cos (polyAngle sides rot k) - c.1) ^ 2 +
        (c.2 + r * Real.sin (polyAngle sides rot k) - c.2) ^ 2 = r ^ 2 := by
      calc (c.1 + r * Real.cos (polyAngle sides rot k) - c.1) ^ 2 +
            (c.2 + r * Real.sin (polyAngle sides rot k) - c.2) ^ 2
          = r ^ 2 * (Real.sin (polyAngle sides rot k) ^ 2 +
              Real.cos (polyAngle sides rot k) ^ 2) := by ring
        _ = r ^ 2 := by rw [Real.sin_sq_add_cos_sq, mul_one]
    rw [h1, Real.sqrt_sq hr.le]
  · intro k
    simp only [polyAngle]
    push_cast
    field_simp
    ring

/-- Witness for C2 at the spec's concrete instance: center (0,0),
radius 10, sides 6, rotation 0; all 6 points lie at distance exactly 10
and consecutive angles differ by 2*pi/6 (60 degrees). -/
theorem regularPolygonVertices_hexagon :
    (0 : ℝ) < 10 ∧ 3 ≤ 6 ∧
    ((regularPolygonVertices (0, 0) 10 6 0).length = 6 ∧
     (∀ p ∈ regularPolygonVertices (0, 0) 10 6 0, euclidDist (0, 0) p = 10) ∧
     (∀ k : ℕ, polyAngle 6 0 (k + 1) - polyAngle 6 0 k = 2 * Real.pi / 6)) :=
  ⟨by norm_num, by norm_num,
   regularPolygonVertices_spec (0, 0) 10 6 0 (by norm_num) (by norm_num)⟩

/-- C9: in both scripts the inner hexagon is the outer hexagon scaled
about the shared center by the radius ratio (2.5/5 in the simple script,
4/8 in the detailed one): both vertex lists come from the same angle
sequence with only the radius changed. -/
theorem innerHexagon_scaled (k : ℕ) (hk : k < 6) :
    script1InnerHexagon[k]? =
      (script1Hexagon[k]?).map (scaleAbout script1HexCenter (5 / 2 / 5)) ∧
    script2InnerHexagon[k]? =
      (script2Hexagon[k]?).map (scaleAbout script2HexCenter (4 / 8)) := by
  constructor <;>
    (simp [script1InnerHexagon, script1Hexagon, script2InnerHexagon,
       script2Hexagon, regularPolygonVertices, List.getElem?_map,
       List.getElem?_range, hk, vertexAt, scaleAbout,
       script1HexCenter, script2HexCenter, Prod.ext_iff];
     constructor <;> ring)

/-- Witness for C9 at vertex index 0. -/
theorem innerHexagon_scaled_vertex0 :
    (0 : ℕ) < 6 ∧
    (script1InnerHexagon[(0 : ℕ)]? =
       (script1Hexagon[(0 : ℕ)]?).map (scaleAbout script1HexCenter (5 / 2 / 5)) ∧
     script2InnerHexagon[(0 : ℕ)]? =
       (script2Hexagon[(0 : ℕ)]?).map (scaleAbout script2HexCenter (4 / 8))) :=
  ⟨by norm_num, innerHexagon_scaled 0 (by norm_num)⟩

/-! ## Scene Description and renderer (C1, C4)

The scripts issue drawing calls (ax.add_patch, ax.text, ax.plot, ...)
against a single shared surface, in source order, with no other input:
no randomness, no clock reads, no file reads.  The painting semantics
themselves live in the plotting library, outside the repository sources,
so the Draw Command type and the painter are modelled from the spec
(sections 3 and 4.2): commands are painted strictly in insertion order,
never reordered or culled, each overwriting earlier content wherever it
covers a point. -/

inductive Cmd where
  | panel (x y w h : ℚ) (fill : String)
  | label (x y : ℚ) (text : String) (color : String)
  | marker (x y r : ℚ) (fill : String)
  | connector (x1 y1 x2 y2 : ℚ) (color : String)
  | gridline (horizontal : Bool) (coord : ℚ) (color : String)
  deriving DecidableEq

/-- Modelled from the spec: the set of canvas points a Draw Command
paints (a Panel covers its rectangle, a Marker its disk, a Label its
anchor point, a Connector its straight supporting line, a GridLine its
axis-aligned line). -/
def covers (c : Cmd) (p : ℚ × ℚ) : Bool :=
  match c with
  | .panel x y w h _ =>
      decide (x ≤ p.1) && decide (p.1 ≤ x + w) &&
      decide (y ≤ p.2) && decide (p.2 ≤ y + h)
  | .label x y _ _ => decide (p.1 = x) && decide (p.2 = y)
  | .marker x y r _ => decide ((p.1 - x) ^ 2 + (p.2 - y) ^ 2 ≤ r ^ 2)
  | .connector x1 y1 x2 y2 _ =>
      decide ((p.2 - y1) * (x2 - x1) = (p.1 - x1) * (y2 - y1))
  | .gridline horizontal coord _ =>
      if horizontal then decide (p.2 = coord) else decide (p.1 = coord)

/-- The color a Draw Command paints with. -/
def colorOf : Cmd → String
  | .panel _ _ _ _ fill => fill
  | .label _ _ _ color => color
  | .marker _ _ _ fill => fill
  | .connector _ _ _ _ color => color
  | .gridline _ _ color => color

/-- Modelled from the spec: painting one Draw Command over a surface;
the command's color replaces the surface content exactly where the
command covers the point. -/
def paint (surf : ℚ × ℚ → String) (c : Cmd) : ℚ × ℚ → String :=
  fun p => if covers c p then colorOf c else surf p

/-- Modelled from the spec: the renderer consumes the Scene Description
in insertion order over a uniform background, with no other input. -/
def render (scene : List Cmd) (bg : String) : ℚ × ℚ → String :=
  scene.foldl paint (fun _ => bg)

/-- Modelled from the spec: the render relation of section 4.2, one step
per Draw Command, in list order; it relates a scene and a starting
surface to any surface a run of the renderer can produce. -/
inductive RendersFrom : List Cmd → (ℚ × ℚ → String) → (ℚ × ℚ → String) → Prop where
  | nil (s : ℚ × ℚ → String) : RendersFrom [] s s
  | cons (c : Cmd) (cs : List Cmd) (s t : ℚ × ℚ → String) :
      RendersFrom cs (paint s c) t → RendersFrom (c :: cs) s t

/-- Panel of src/docs/create-diagram.py line 36: the base platform at
(10,10), size 80 by 25, fill '#0d1f33', added first. -/
def baseRectCmd : Cmd := .panel 10 10 80 25 "#0d1f33"

/-- Label of src/docs/create-diagram.py line 59: the foundation label
anchored at (50,13) in cyan_bright '#2d6a8f', added after the panel and
overlapping it. -/
def foundationLabelCmd : Cmd := .label 50 13 "LOCAL MODEL REPOSITORY" "#2d6a8f"

/-- C1: rendering is deterministic: two runs of the renderer on the same
Scene Description from the same starting surface produce the same
output; the relation takes no input besides the scene, so there is no
seed or clock for the output to depend on. -/
theorem render_deterministic (scene : List Cmd) (s o1 o2 : ℚ × ℚ → String)
    (h1 : RendersFrom scene s o1) (h2 : RendersFrom scene s o2) : o1 = o2 := by
  induction h1 generalizing o2 with
  | nil s => cases h2 with
    | nil => rfl
  | cons c cs s t h ih => cases h2 with
    | cons _ _ _ _ h2tail => exact ih o2 h2tail

/-- Witness for C1: two runs on the one-command scene containing the
base panel of the simple script agree. -/
theorem render_deterministic_base_panel :
    paint (fun _ => "#0a1628") baseRectCmd = paint (fun _ => "#0a1628") baseRectCmd :=
  render_deterministic [baseRectCmd] (fun _ => "#0a1628") _ _
    (RendersFrom.cons _ _ _ _ (RendersFrom.nil _))
    (RendersFrom.cons _ _ _ _ (RendersFrom.nil _))

/-- C4: draw order is insertion order: a command added last paints over
every command added earlier, at every point it covers; the renderer
folds over the list in order and never reorders or culls. -/
theorem later_command_on_top (pre : List Cmd) (c : Cmd) (bg : String)
    (p : ℚ × ℚ) (h : covers c p = true) :
    render (pre ++ [c]) bg p = colorOf c := by
  simp [render, List.foldl_append, paint, h]

/-- Witness for C4: the base panel of the simple script is added before
the foundation label; at the overlap point (50,13) the rendered pixel
shows the label's color '#2d6a8f', not the panel's '#0d1f33'. -/
theorem later_command_on_top_panel_label :
    covers foundationLabelCmd (50, 13) = true ∧
    render [baseRectCmd, foundationLabelCmd] "#0a1628" (50, 13) = "#2d6a8f" :=
  ⟨by simp [covers, foundationLabelCmd],
   later_command_on_top [baseRectCmd] foundationLabelCmd ("#0a1628") (50, 13)
     (by simp [covers, foundationLabelCmd])⟩

/-! ## Polygon validation (C5) -/

inductive GeometryError where
  | invalidGeometry
  deriving DecidableEq

structure PolygonCmd (α : Type) where
  vertices : List α
  deriving DecidableEq

/-- Modelled from the spec: scene construction signals
InvalidGeometryError for a Polygon command with fewer than 3 vertices,
before any rendering work (sections 4.1 and 7); the repository sources
only call the polygon constructor (with 6-vertex hexagons), the
validation itself is not part of them. -/
def mkPolygon {α : Type} (vs : List α) : Except GeometryError (PolygonCmd α) :=
  if vs.length < 3 then .error .invalidGeometry else .ok ⟨vs⟩

/-- C5: constructing a Polygon with fewer than 3 vertices fails with
InvalidGeometryError at construction time; with 3 or more vertices it
succeeds and carries exactly the given vertices. -/
theorem polygon_validation {α : Type} (vs : List α) :
    (vs.length < 3 → mkPolygon vs = .error .invalidGeometry) ∧
    (3 ≤ vs.length → mkPolygon vs = .ok ⟨vs⟩) := by
  constructor <;> intro h
  · simp [mkPolygon, h]
  · rw [mkPolygon, if_neg (by omega)]

/-- Witness for C5: a 2-vertex polygon is rejected, a 3-vertex one is
accepted. -/
theorem polygon_validation_cases :
    mkPolygon [((0 : ℚ), (0 : ℚ)), (1, 1)] = .error .invalidGeometry ∧
    mkPolygon [((0 : ℚ), (0 : ℚ)), (1, 1), (2, 0)] = .ok ⟨[(0, 0), (1, 1), (2, 0)]⟩ :=
  ⟨(polygon_validation _).1 (by decide), (polygon_validation _).2 (by decide)⟩

/-! ## Export (C6, C8) -/

structure Surface where
  width : ℚ
  height : ℚ
  deriving DecidableEq

structure RasterImage where
  widthPx : ℚ
  heightPx : ℚ
  path : String
  background : String
  deriving DecidableEq

/-- Modelled from the spec: export rasterizes the surface at
resolution_scale times the base size, adds uniform padding on every
side filled with the background color, and writes to the given path
(section 4.2); the rasterization itself is performed by the plotting
library, outside the repository sources. -/
def exportSurface (s : Surface) (path : String) (resolutionScale padding : ℚ)
    (bg : String) : RasterImage :=
  ⟨(s.width + 2 * padding) * resolutionScale,
   (s.height + 2 * padding) * resolutionScale, path, bg⟩

/-- C6: export dimensions follow (canvas_size + 2*padding) *
resolution_scale on each axis; in particular a (100,100) canvas with
scale 2 and padding 5 exports at 220 by 220. -/
theorem export_dims (w h rs pad : ℚ) (path bg : String) :
    (exportSurface ⟨w, h⟩ path rs pad bg).widthPx = (w + 2 * pad) * rs ∧
    (exportSurface ⟨w, h⟩ path rs pad bg).heightPx = (h + 2 * pad) * rs ∧
    (exportSurface ⟨100, 100⟩ path 2 5 bg).widthPx = 220 ∧
    (exportSurface ⟨100, 100⟩ path 2 5 bg).heightPx = 220 :=
  ⟨rfl, rfl, by norm_num [exportSurface], by norm_num [exportSurface]⟩

/-- One savefig call as it appears in the sources: target path, dpi,
face color and pad_inches. -/
structure SaveCall where
  path : String
  dpi : ℚ
  facecolor : String
  padInches : ℚ

/-- Whether a path carries the .png extension. -/
def hasPngSuffix (p : String) : Bool :=
  p.data.reverse.take 4 == ['g', 'n', 'p', '.']

/-- The single savefig call of src/docs/create-diagram.py lines 220-221. -/
def script1SaveCalls : List SaveCall :=
  [⟨"arandu-architecture.png", 300, "#0a1628", 0.3⟩]

/-- The single savefig call of src/docs/create-diagram-detailed.py lines
462-463 (facecolor is color_background, i.e. '#0a1628'). -/
def script2SaveCalls : List SaveCall :=
  [⟨"arandu-architecture-detailed.png", 300, "#0a1628", 0.5⟩]

/-- C8: each script performs exactly one export, to a caller-chosen
path with a .png extension; the export model writes to exactly the
given path with the given background fill. -/
theorem single_png_output :
    script1SaveCalls.length = 1 ∧ script2SaveCalls.length = 1 ∧
    script1SaveCalls.all (fun c => hasPngSuffix c.path) = true ∧
    script2SaveCalls.all (fun c => hasPngSuffix c.path) = true ∧
    (∀ (s : Surface) (path : String) (rs pad : ℚ) (bg : String),
      (exportSurface s path rs pad bg).path = path ∧
      (exportSurface s path rs pad bg).background = bg) :=
  ⟨rfl, rfl, by decide, by decide, fun s path rs pad bg => ⟨rfl, rfl⟩⟩

end Arandu
